import Mathlib

/-!
Shallow embedding of the sales-dashboard pipeline (`src/dashboard.py`).

The repository is a single Streamlit script that loads five tabular sources,
builds an enriched sales view (`create_sales_data`), computes six KPIs
(`calculate_kpis`) and aggregates revenue for charts (`create_charts`).
Dataframes are modelled as lists of records together with boolean flags that
record which *optional* columns exist in the loaded schema (the script
dispatches on `'col' in df.columns`).  A null cell of an optional column is an
`Option` field; money amounts are modelled as rationals.  The script's
`np.random.choice` / `np.random.uniform` calls are modelled by explicit random
sources (`Nat → Nat` index pickers and a `Nat → ℚ` draw per row).  A pandas
mean of an empty series is `NaN`; that is modelled by `Option ℚ` with `none`
for `NaN`.  Operations that can raise (`KeyError` on a missing column,
`ValueError` from `np.random.choice` on an empty population) are modelled with
`Except String`.
-/

/-- Mean of a pandas numeric series: `NaN` (here `none`) when empty. -/
def pmean (l : List ℚ) : Option ℚ := if l.isEmpty then none else some (l.sum / l.length)

/-- Distinct values of a list (order of pandas `groupby`/`nunique` keys is
irrelevant to every aggregate below, so any duplicate-free enumeration is
adequate). -/
def uniq {α : Type} [DecidableEq α] : List α → List α
  | [] => []
  | x :: xs => if x ∈ uniq xs then uniq xs else x :: uniq xs

/-- `np.random.choice(l, ...)` picks elements of `l`; the random source is the
pre-drawn index `n`, reduced mod the population size. -/
def listChoice (l : List Int) (n : Nat) : Int := l.getD (n % l.length) 0

/-- One row of `events_clean.csv` (the columns the pipeline reads).
`transactionid` and `itemid` values are nullable; whether those columns exist
at all is recorded on the table. -/
structure Event where
  visitorid : Int
  transactionid : Option String
  itemid : Option Int
deriving DecidableEq, Inhabited

/-- The events dataframe: rows plus presence flags of the optional columns
(`visitorid`, `transactionid`, `itemid`) the script tests with
`'col' in df.columns`. -/
structure EventsTable where
  hasVisitorid : Bool
  hasTransactionid : Bool
  hasItemid : Bool
  rows : List Event
deriving DecidableEq, Inhabited

/-- One row of `producto_clean.csv` restricted to the columns the merge pulls:
`id, categoria_id, nombre` always, `marca_id`/`precio` when present. -/
structure Product where
  id : Int
  categoria_id : Option Int
  nombre : String
  marca_id : Option Int
  precio : Option ℚ
deriving DecidableEq, Inhabited

/-- The product dataframe with presence flags for its optional columns. -/
structure ProductTable where
  hasMarcaId : Bool
  hasPrecio : Bool
  rows : List Product
deriving DecidableEq, Inhabited

/-- One row of `categoria_clean.csv`: `{id, categoria}`. -/
structure Categoria where
  id : Int
  categoria : String
deriving DecidableEq, Inhabited

/-- One row of `marca_clean.csv`: `{id, marca}`. -/
structure Marca where
  id : Int
  marca : String
deriving DecidableEq, Inhabited

/-- A row of the derived `sales_data` frame: the event columns carried through
the left joins, the enrichment columns the joins may add (null when the join
found no match or the source column was absent) and the derived `revenue`.
Temporal decomposition columns (year/month/day/hour) are never read by the
KPIs or by any claim and are not modelled. -/
structure SalesRow where
  visitorid : Int
  transactionid : Option String
  itemid : Option Int
  categoria_id : Option Int
  producto_nombre : Option String
  marca_id : Option Int
  precio : Option ℚ
  categoria_nombre : Option String
  marca_nombre : Option String
  revenue : ℚ
deriving DecidableEq, Inhabited

/-- The derived sales dataframe: the column-presence flags are inherited from
the events table (the builder never adds a `visitorid`, `transactionid` or
`itemid` column). -/
structure SalesData where
  hasVisitorid : Bool
  hasTransactionid : Bool
  hasItemid : Bool
  rows : List SalesRow
deriving DecidableEq, Inhabited

/-- A fresh sales row for event `e` before any enrichment: join columns null,
revenue not yet assigned. -/
def baseRow (e : Event) : SalesRow :=
  { visitorid := e.visitorid, transactionid := e.transactionid, itemid := e.itemid,
    categoria_id := none, producto_nombre := none, marca_id := none, precio := none,
    categoria_nombre := none, marca_nombre := none, revenue := 0 }

/-- Transaction filtering (dashboard.py lines 99-105): if the `transactionid`
column exists keep the events with a non-null value, falling back to all
events when that filter is empty; otherwise use all events. -/
def filterTransactions (events : EventsTable) : List Event :=
  if events.hasTransactionid then
    let f := events.rows.filter (fun e => e.transactionid.isSome)
    if f.isEmpty then events.rows else f
  else events.rows

/-- Left-merge of one event against the product table (lines 108-118):
`left_on='itemid', right_on='id'`.  A null `itemid` matches nothing; an
unmatched event keeps its row with null enrichment; every matching product row
produces one output row (pandas duplicates the left row per match).  The
`marca_id`/`precio` columns are pulled only when they exist in the source. -/
def productRows (producto : ProductTable) (e : Event) : List SalesRow :=
  let ms := producto.rows.filter (fun p => e.itemid == some p.id)
  if ms.isEmpty then [baseRow e]
  else ms.map (fun p =>
    { baseRow e with
      categoria_id := p.categoria_id,
      producto_nombre := some p.nombre,
      marca_id := if producto.hasMarcaId then p.marca_id else none,
      precio := if producto.hasPrecio then p.precio else none })

/-- Synthetic-assignment path (lines 120-124), taken when no `itemid` column
exists: row `i` gets a category id picked by `np.random.choice` from the
category-id list, and — only when the product table has a `marca_id` column
and the brand table is non-empty — a brand id picked from the brand-id
list. -/
def syntheticRow (hasMarcaId : Bool) (categoria : List Categoria) (marca : List Marca)
    (rngCat rngMarca : Nat → Nat) (i : Nat) (e : Event) : SalesRow :=
  { baseRow e with
    categoria_id := some (listChoice (categoria.map (·.id)) (rngCat i)),
    marca_id := if hasMarcaId && !marca.isEmpty then
        some (listChoice (marca.map (·.id)) (rngMarca i))
      else none }

/-- Category left-join (lines 127-130): `left_on='categoria_id'`,
`right_on='id'`; the resolved `categoria` column becomes `categoria_nombre`,
left null when no category matches. -/
def joinCategoria (categoria : List Categoria) (rows : List SalesRow) : List SalesRow :=
  rows.flatMap (fun r =>
    let ms := categoria.filter (fun c => r.categoria_id == some c.id)
    if ms.isEmpty then [r]
    else ms.map (fun c => { r with categoria_nombre := some c.categoria }))

/-- Brand join (lines 133-139): performed only when the product table has a
`marca_id` column and the brand table is non-empty (`useJoin`); otherwise
every row gets the literal sentinel "Sin Marca". -/
def joinMarca (useJoin : Bool) (marca : List Marca) (rows : List SalesRow) : List SalesRow :=
  if useJoin then
    rows.flatMap (fun r =>
      let ms := marca.filter (fun m => r.marca_id == some m.id)
      if ms.isEmpty then [r]
      else ms.map (fun m => { r with marca_nombre := some m.marca }))
  else rows.map (fun r => { r with marca_nombre := some "Sin Marca" })

/-- Revenue derivation (lines 142-146): when the product table has a `precio`
column and it survived the merge (i.e. the merge ran because `itemid` exists),
revenue is the price with the fixed default 100 substituted for nulls;
otherwise revenue is the per-row draw of `np.random.uniform(50, 500)`. -/
def assignRevenue (usePrecio : Bool) (rngRev : Nat → ℚ) (rows : List SalesRow) : List SalesRow :=
  if usePrecio then rows.map (fun r => { r with revenue := r.precio.getD 100 })
  else rows.enum.map (fun p => { p.2 with revenue := rngRev p.1 })

/-- The row pipeline of `create_sales_data` on its non-raising path:
transaction filter, product join or synthetic assignment, category join,
brand join, revenue derivation. -/
def buildRows (events : EventsTable) (producto : ProductTable)
    (categoria : List Categoria) (marca : List Marca)
    (rngCat rngMarca : Nat → Nat) (rngRev : Nat → ℚ) : List SalesRow :=
  let ses := filterTransactions events
  let base :=
    if events.hasItemid then ses.flatMap (productRows producto)
    else ses.enum.map (fun p => syntheticRow producto.hasMarcaId categoria marca rngCat rngMarca p.1 p.2)
  assignRevenue (producto.hasPrecio && events.hasItemid) rngRev
    (joinMarca (producto.hasMarcaId && !marca.isEmpty) marca
      (joinCategoria categoria base))

/-- `create_sales_data(events, producto, categoria, marca, cliente)` (lines
89-155).  On the synthetic path (`itemid` column absent), line 122 calls
`np.random.choice(categoria['id'].tolist(), len(sales_data))`, which raises
`ValueError` whenever the population is empty; that failure condition is
checked up front here, and the success path is `buildRows`.  The `cliente`
argument is unused by the source function and omitted. -/
def create_sales_data (events : EventsTable) (producto : ProductTable)
    (categoria : List Categoria) (marca : List Marca)
    (rngCat rngMarca : Nat → Nat) (rngRev : Nat → ℚ) : Except String SalesData :=
  if !events.hasItemid && categoria.isEmpty then
    .error "ValueError: a must be non-empty"
  else
    .ok { hasVisitorid := events.hasVisitorid,
          hasTransactionid := events.hasTransactionid,
          hasItemid := events.hasItemid,
          rows := buildRows events producto categoria marca rngCat rngMarca rngRev }

/-- The six KPIs; each is `Option ℚ` because a pandas mean of an empty series
is `NaN` (`none`). -/
structure KpiSet where
  avg_clv : Option ℚ
  conversion_rate : Option ℚ
  avg_order_value : Option ℚ
  avg_items_per_transaction : Option ℚ
  ticket_promedio : Option ℚ
  tasa_repeticion : Option ℚ
deriving DecidableEq, Inhabited

/-- The all-zero KPI set returned by the fallback branch (lines 197-203). -/
def zeroKpis : KpiSet :=
  { avg_clv := some 0, conversion_rate := some 0, avg_order_value := some 0,
    avg_items_per_transaction := some 0, ticket_promedio := some 0, tasa_repeticion := some 0 }

/-- Distinct visitor ids: the keys of `groupby('visitorid')` (line 162). -/
def kpiVisitors (rows : List SalesRow) : List Int := uniq (rows.map (·.visitorid))

/-- Per-visitor revenue sums, `groupby('visitorid')['revenue'].sum()`. -/
def kpiCustomerRevenue (rows : List SalesRow) : List ℚ :=
  (kpiVisitors rows).map (fun v => ((rows.filter (fun r => r.visitorid == v)).map (·.revenue)).sum)

/-- Transaction count for the conversion rate (lines 167-171): the non-null
`transactionid` count when that column exists, the full row count
otherwise. -/
def kpiTransactionsCount (sales : SalesData) : Nat :=
  if sales.hasTransactionid then (sales.rows.filter (fun r => r.transactionid.isSome)).length
  else sales.rows.length

/-- Conversion rate (line 172): transactions over total raw events, times 100,
zero when there are no events. -/
def kpiConversionRate (sales : SalesData) (events : EventsTable) : ℚ :=
  if 0 < events.rows.length then
    (kpiTransactionsCount sales : ℚ) / (events.rows.length : ℚ) * 100
  else 0

/-- Distinct non-null transaction ids: keys of `groupby('transactionid')`
(null keys are dropped by pandas). -/
def kpiTxnKeys (rows : List SalesRow) : List String := uniq (rows.filterMap (·.transactionid))

/-- Per-transaction distinct non-null item count,
`groupby('transactionid')['itemid'].nunique()` (line 179). -/
def kpiItemsPerTxn (rows : List SalesRow) : Option ℚ :=
  pmean ((kpiTxnKeys rows).map (fun t =>
    ((uniq ((rows.filter (fun r => r.transactionid == some t)).filterMap (·.itemid))).length : ℚ)))

/-- Mean per-transaction revenue, `groupby('transactionid')['revenue'].sum().mean()`
(line 185). -/
def kpiTicket (rows : List SalesRow) : Option ℚ :=
  pmean ((kpiTxnKeys rows).map (fun t =>
    ((rows.filter (fun r => r.transactionid == some t)).map (·.revenue)).sum))

/-- Per-visitor distinct non-null transaction counts,
`groupby('visitorid')['transactionid'].nunique()` (line 191). -/
def kpiComprasPorCliente (rows : List SalesRow) : List Nat :=
  (kpiVisitors rows).map (fun v =>
    (uniq ((rows.filter (fun r => r.visitorid == v)).filterMap (·.transactionid))).length)

/-- Repeat-customer rate (lines 192-193): share of visitors with more than one
distinct transaction among all visitor groups. -/
def kpiTasaRepeticion (rows : List SalesRow) : ℚ :=
  let compras := kpiComprasPorCliente rows
  if 0 < compras.length then
    ((compras.filter (fun n => 1 < n)).length : ℚ) / (compras.length : ℚ) * 100
  else 0

/-- `calculate_kpis(sales_data, events, cliente)` (lines 157-212).  When the
sales view is empty or has no `visitorid` column every KPI is zero.  On the
main branch, KPI 6 evaluates `sales_data.groupby('visitorid')['transactionid']`
with no guard on the `transactionid` column (line 191, unlike KPIs 2/4/5), so
the function raises `KeyError` when that column is absent; KPIs computed
before the raise are discarded, hence the single error result.  On the
surviving branch `transactionid` exists, which fixes the branches of KPIs 2, 4
and 5.  `cliente` is unused by the source function and omitted. -/
def calculate_kpis (sales : SalesData) (events : EventsTable) : Except String KpiSet :=
  if !sales.rows.isEmpty && sales.hasVisitorid then
    if sales.hasTransactionid then
      .ok { avg_clv := pmean (kpiCustomerRevenue sales.rows),
            conversion_rate := some (kpiConversionRate sales events),
            avg_order_value := pmean (sales.rows.map (·.revenue)),
            avg_items_per_transaction :=
              if sales.hasItemid then kpiItemsPerTxn sales.rows else some 1,
            ticket_promedio := kpiTicket sales.rows,
            tasa_repeticion := some (kpiTasaRepeticion sales.rows) }
    else .error "KeyError: transactionid"
  else .ok zeroKpis

/-- Revenue grouped by a nullable key (pandas `groupby` drops null keys). -/
def groupRevenueByOpt {κ : Type} [DecidableEq κ] (key : SalesRow → Option κ)
    (rows : List SalesRow) : List (κ × ℚ) :=
  (uniq (rows.filterMap key)).map (fun k =>
    (k, ((rows.filter (fun r => key r == some k)).map (·.revenue)).sum))

/-- Revenue grouped by a non-nullable key. -/
def groupRevenueBy {κ : Type} [DecidableEq κ] (key : SalesRow → κ)
    (rows : List SalesRow) : List (κ × ℚ) :=
  (uniq (rows.map key)).map (fun k =>
    (k, ((rows.filter (fun r => key r == k)).map (·.revenue)).sum))

/-- Insertion step of a descending sort on the revenue component. -/
def insertDesc {κ : Type} (x : κ × ℚ) : List (κ × ℚ) → List (κ × ℚ)
  | [] => [x]
  | y :: ys => if y.2 ≤ x.2 then x :: y :: ys else y :: insertDesc x ys

/-- `sort_values('revenue', ascending=False)`. -/
def sortRevenueDesc {κ : Type} (l : List (κ × ℚ)) : List (κ × ℚ) := l.foldr insertDesc []

/-- `sort_values(...).head(10)`. -/
def top10 {κ : Type} (l : List (κ × ℚ)) : List (κ × ℚ) := (sortRevenueDesc l).take 10

/-- `cat_sales` (line 220): revenue grouped by `categoria_nombre`; rows whose
category name is null are dropped by pandas `groupby`. -/
def cat_sales (rows : List SalesRow) : List (String × ℚ) :=
  groupRevenueByOpt (·.categoria_nombre) rows

/-- `cat_sales_plot` (lines 221-234) for an arbitrary share threshold `t` (the
script uses `t = 1.5`): categories whose share of the grouped total is below
`t`% are collapsed into one "Otras" row appended at the end. -/
def cat_sales_plot (t : ℚ) (rows : List SalesRow) : List (String × ℚ) :=
  let cs := cat_sales rows
  let total := (cs.map (·.2)).sum
  let mainCats := cs.filter (fun p => t ≤ p.2 / total * 100)
  let otherCats := cs.filter (fun p => p.2 / total * 100 < t)
  if !otherCats.isEmpty then mainCats ++ [("Otras", (otherCats.map (·.2)).sum)]
  else mainCats

/-- The aggregation outputs of `create_charts` that feed charts and tables.
The date-indexed series (requires the unmodelled `event_time` column) and the
event-type counts (computed from raw events under their own column guard,
presentation-only) are not modelled. -/
structure ChartsData where
  categorySales : List (String × ℚ)
  brandSales : List (String × ℚ)
  ventasCliente : List (Int × ℚ)
  ventasProducto : List (Int × ℚ)
  ventasCategoria : List (String × ℚ)
deriving DecidableEq, Inhabited

/-- The empty charts dictionary produced when the sales view is empty. -/
def emptyCharts : ChartsData :=
  { categorySales := [], brandSales := [], ventasCliente := [], ventasProducto := [],
    ventasCategoria := [] }

/-- `create_charts(sales_data, events)` (lines 214-297).  When the sales view
is empty the whole block is skipped.  Otherwise the category and brand
groupbys succeed (those columns always exist after the builder), but lines
278-279 run `groupby('visitorid')` and `groupby('itemid')` with no column
guard, raising `KeyError` when the corresponding column is absent. -/
def create_charts (sales : SalesData) (events : EventsTable) : Except String ChartsData :=
  if sales.rows.isEmpty then .ok emptyCharts
  else if !sales.hasVisitorid then .error "KeyError: visitorid"
  else if !sales.hasItemid then .error "KeyError: itemid"
  else
    .ok { categorySales := cat_sales_plot (3 / 2) sales.rows,
          brandSales := top10 (groupRevenueByOpt (·.marca_nombre) sales.rows),
          ventasCliente := top10 (groupRevenueBy (·.visitorid) sales.rows),
          ventasProducto := top10 (groupRevenueByOpt (·.itemid) sales.rows),
          ventasCategoria := top10 (cat_sales sales.rows) }

/-- The loader-to-KPI pipeline as run by `main` (lines 339-342): build the
sales view, then compute KPIs over it and the raw events. -/
def pipelineKpis (events : EventsTable) (producto : ProductTable)
    (categoria : List Categoria) (marca : List Marca)
    (rngCat rngMarca : Nat → Nat) (rngRev : Nat → ℚ) : Except String KpiSet :=
  (create_sales_data events producto categoria marca rngCat rngMarca rngRev).bind
    (fun sd => calculate_kpis sd events)

/-- The loader-to-charts pipeline as run by `main` (lines 339, 457). -/
def pipelineCharts (events : EventsTable) (producto : ProductTable)
    (categoria : List Categoria) (marca : List Marca)
    (rngCat rngMarca : Nat → Nat) (rngRev : Nat → ℚ) : Except String ChartsData :=
  (create_sales_data events producto categoria marca rngCat rngMarca rngRev).bind
    (fun sd => create_charts sd events)

/-! Concrete instances used to evaluate the pipeline on specific inputs. -/

/-- A degenerate random index source (always the first element). -/
def rng0 : Nat → Nat := fun _ => 0

/-- A degenerate `np.random.uniform` draw sequence (always 0). -/
def rngq0 : Nat → ℚ := fun _ => 0

/-- A constant in-range `np.random.uniform(50, 500)` draw sequence. -/
def rngq50 : Nat → ℚ := fun _ => 50

/-- The sales view of a builder run known to succeed. -/
def okRows (x : Except String SalesData) : SalesData := x.toOption.getD default

/-- C1 input: events with a `visitorid` column, no `transactionid` column. -/
def evC1 : EventsTable := ⟨true, false, true, [⟨1, none, some 1⟩]⟩

/-- C1 input: a product table with no optional columns and no rows. -/
def prodEmpty : ProductTable := ⟨false, false, []⟩

/-- C2 input: an events table with all optional columns but zero rows. -/
def evC2 : EventsTable := ⟨true, true, true, []⟩

/-- C2 witness input: a one-row sales view with visitor, transaction and item
columns, the row bearing a transaction id and an item id. -/
def salesW2 : SalesData := ⟨true, true, true, [⟨0, some "A", some 1, none, none, none, none, none, none, 0⟩]⟩

/-- C3 input: one event, but two product rows sharing id 1, so the left merge
duplicates the event. -/
def evC3 : EventsTable := ⟨true, true, true, [⟨0, some "A", some 1⟩]⟩

/-- C3 input: duplicate product ids. -/
def prodC3 : ProductTable := ⟨false, false, [⟨1, none, "p", none, none⟩, ⟨1, none, "q", none, none⟩]⟩

/-- C3 witness input: one event carrying a transaction id. -/
def evW3 : EventsTable := ⟨true, true, true, [⟨0, some "T", some 1⟩]⟩

/-- C3 witness input: a product table with unique ids and a price column. -/
def prodW3 : ProductTable := ⟨false, true, [⟨1, some 1, "p", none, some 10⟩]⟩

/-- C3 witness input: category table. -/
def catsW3 : List Categoria := [⟨1, "c"⟩]

/-- C3 witness: the built sales view. -/
def sdW3 : SalesData := okRows (create_sales_data evW3 prodW3 catsW3 [] rng0 rng0 rngq0)

/-- C4 input: the event references item 1 but the product table is empty, so
the category id stays null; the brand join runs (brand-id column present,
non-empty brand table) but cannot match a null brand id. -/
def evC4 : EventsTable := ⟨true, true, true, [⟨0, some "A", some 1⟩]⟩

/-- C4 input: `marca_id` column exists but there are no products. -/
def prodC4 : ProductTable := ⟨true, false, []⟩

/-- C4 input: category table (never matched). -/
def catsC4 : List Categoria := [⟨5, "X"⟩]

/-- C4 input: non-empty brand table (so the brand join path is taken). -/
def marC4 : List Marca := [⟨7, "B"⟩]

/-- C4: the built sales view for the C4 input. -/
def sdC4 : SalesData := okRows (create_sales_data evC4 prodC4 catsC4 marC4 rng0 rng0 rngq0)

/-- C5 input: the referenced product carries a negative price. -/
def prodC5 : ProductTable := ⟨false, true, [⟨1, none, "p", none, some (-5)⟩]⟩

/-- C5 witness: the built sales view for the C3-witness input (price 10). -/
def sdW5 : SalesData := okRows (create_sales_data evW3 prodW3 catsW3 [] rng0 rng0 rngq50)

/-- C6 input: a one-row sales table whose category name is null, so the
category groupby drops all of its revenue. -/
def rowsC6 : List SalesRow := [⟨0, some "A", some 1, none, none, none, none, none, some "Sin Marca", 5⟩]

/-- C7 input: events with no `visitorid` column (but one row). -/
def evC7 : EventsTable := ⟨false, true, true, [⟨0, some "A", none⟩]⟩

/-- C7 witness input: empty sales view with all columns present. -/
def salesW7 : SalesData := ⟨true, true, true, []⟩

/-- C8 input: the three-event scenario of the spec (visitor 1 buys items 10
and 11 in transaction A, visitor 2 buys item 10 in transaction B). -/
def evC8 : EventsTable :=
  ⟨true, true, true,
    [⟨1, some "A", some 10⟩, ⟨1, some "A", some 11⟩, ⟨2, some "B", some 10⟩]⟩

/-- C8 input: products 10 (price 50) and 11 (price 30). -/
def prodC8 : ProductTable :=
  ⟨false, true, [⟨10, some 1, "p10", none, some 50⟩, ⟨11, some 1, "p11", none, some 30⟩]⟩

/-- C8 input: one category so the joins resolve. -/
def catsC8 : List Categoria := [⟨1, "c"⟩]

/-- C9 input: no `itemid` column; the product table lacks a `marca_id` column
while the brand table is non-empty. -/
def evC9 : EventsTable := ⟨true, true, false, [⟨0, some "A", none⟩]⟩

/-- C9 input: non-empty brand table. -/
def marC9 : List Marca := [⟨7, "B"⟩]

/-- C9 input: category table for the synthetic draw. -/
def catsC9 : List Categoria := [⟨1, "c"⟩]

/-- C9 witness input: product table with a `marca_id` column and no rows. -/
def prodW9 : ProductTable := ⟨true, false, []⟩

/-- C9 witness input: category table. -/
def catsW9 : List Categoria := [⟨3, "c"⟩]

/-- C9 witness: the built sales view. -/
def sdW9 : SalesData := okRows (create_sales_data evC9 prodW9 catsW9 marC9 rng0 rng0 rngq50)

/-- C10 witness input: one event, no `itemid` column. -/
def evW10 : EventsTable := ⟨true, true, false, [⟨0, none, none⟩]⟩

/-- C1 input: category table. -/
def catsC1 : List Categoria := [⟨1, "c"⟩]

/-- C1: the built sales view (no transaction column). -/
def sdC1 : SalesData := okRows (create_sales_data evC1 prodEmpty catsC1 [] rng0 rng0 rngq0)

/-- The KPI set of a KPI run known to succeed. -/
def okKpis (x : Except String KpiSet) : KpiSet := x.toOption.getD default

/-- C2 witness: the KPI set computed over `salesW2`. -/
def kW2 : KpiSet := okKpis (calculate_kpis salesW2 evC2)

/-- C4 witness: the first (and only) row of the C4 sales view. -/
def rowC4 : SalesRow := sdC4.rows.headI

/-- C5 witness: the first (and only) row of the priced sales view. -/
def rowW5 : SalesRow := sdW5.rows.headI

/-- C9 witness: the first (and only) row of the synthetic sales view. -/
def rowW9 : SalesRow := sdW9.rows.headI

/-! Helper lemmas about `uniq`, `pmean` and grouped sums. -/

theorem mem_uniq {α : Type} [DecidableEq α] (l : List α) : ∀ a, a ∈ uniq l ↔ a ∈ l := by
  induction l with
  | nil => intro a; simp [uniq]
  | cons x xs ih =>
    intro a
    simp only [uniq]
    by_cases h : x ∈ uniq xs
    · rw [if_pos h, ih a, List.mem_cons]
      have hx : x ∈ xs := (ih x).mp h
      constructor
      · exact Or.inr
      · rintro (rfl | ht)
        · exact hx
        · exact ht
    · rw [if_neg h]
      simp [List.mem_cons, ih a]

theorem nodup_uniq {α : Type} [DecidableEq α] (l : List α) : (uniq l).Nodup := by
  induction l with
  | nil => simp [uniq]
  | cons x xs ih =>
    by_cases h : x ∈ uniq xs
    · simpa [uniq, h] using ih
    · simp only [uniq, if_neg h]
      exact List.Nodup.cons h ih

theorem length_le_sum_of_one_le (l : List ℚ) (h : ∀ x ∈ l, 1 ≤ x) :
    (l.length : ℚ) ≤ l.sum := by
  induction l with
  | nil => simp
  | cons a t ih =>
    simp only [List.length_cons, List.sum_cons, Nat.cast_succ]
    have h1 := h a (by simp)
    have h2 := ih (fun x hx => h x (by simp [hx]))
    linarith

theorem pmean_ge_one (l : List ℚ) (hne : l ≠ []) (h : ∀ x ∈ l, 1 ≤ x) :
    ∃ q, pmean l = some q ∧ 1 ≤ q := by
  refine ⟨l.sum / l.length, ?_, ?_⟩
  · simp [pmean, List.isEmpty_iff, hne]
  · have hlen : 0 < l.length := List.length_pos.mpr hne
    have hlq : (0 : ℚ) < (l.length : ℚ) := by exact_mod_cast hlen
    exact (one_le_div hlq).mpr (length_le_sum_of_one_le l h)

theorem sum_map_add {α : Type} (l : List α) (f g : α → ℚ) :
    (l.map (fun x => f x + g x)).sum = (l.map f).sum + (l.map g).sum := by
  induction l with
  | nil => simp
  | cons a t ih => simp only [List.map_cons, List.sum_cons, ih]; ring

theorem filter_cons_sum {α : Type} (p : α → Bool) (w : α → ℚ) (r : α) (rest : List α) :
    ((List.filter p (r :: rest)).map w).sum
      = (if p r then w r else 0) + ((List.filter p rest).map w).sum := by
  cases hp : p r <;> simp [List.filter_cons, hp]

theorem sum_ite_single {κ : Type} (keys : List κ) (hnd : keys.Nodup)
    (k₀ : κ) (hk : k₀ ∈ keys) (c : ℚ) (b : κ → Bool) (hb : ∀ k, b k = true ↔ k = k₀) :
    (keys.map (fun k => if b k then c else 0)).sum = c := by
  induction keys with
  | nil => cases hk
  | cons y ys ih =>
    by_cases hy : y = k₀
    · subst hy
      have hnotin : y ∉ ys := (List.nodup_cons.mp hnd).1
      have hz : ((ys.map (fun k => if b k then c else 0)).sum) = 0 := by
        apply List.sum_eq_zero
        intro x hx
        rcases List.mem_map.mp hx with ⟨k, hkmem, rfl⟩
        have hne : ¬ (b k = true) := by
          intro he
          have hky : k = y := (hb k).mp he
          exact hnotin (hky ▸ hkmem)
        simp [hne]
      rw [List.map_cons, List.sum_cons, if_pos ((hb y).mpr rfl), hz, add_zero]
    · have hmem : k₀ ∈ ys := by
        rcases List.mem_cons.mp hk with h | h
        · exact absurd h.symm hy
        · exact h
      have hyne : ¬ (b y = true) := fun he => hy ((hb y).mp he)
      rw [List.map_cons, List.sum_cons, if_neg hyne, zero_add]
      exact ih (List.nodup_cons.mp hnd).2 hmem

theorem sum_groups {α κ : Type} [DecidableEq κ] (key : α → Option κ) (w : α → ℚ)
    (keys : List κ) (hnd : keys.Nodup) (rows : List α)
    (hcov : ∀ r ∈ rows, ∀ k, key r = some k → k ∈ keys) :
    (keys.map (fun k => ((rows.filter (fun r => key r == some k)).map w).sum)).sum
      = ((rows.filter (fun r => (key r).isSome)).map w).sum := by
  induction rows with
  | nil =>
    simp only [List.filter_nil, List.map_nil, List.sum_nil]
    exact List.sum_eq_zero (by intro x hx; rcases List.mem_map.mp hx with ⟨k, _, rfl⟩; rfl)
  | cons r rest ih =>
    have hcov2 : ∀ x ∈ rest, ∀ k, key x = some k → k ∈ keys :=
      fun x hx => hcov x (List.mem_cons_of_mem _ hx)
    have hstep : ∀ k : κ, ((List.filter (fun x => key x == some k) (r :: rest)).map w).sum
        = (if key r == some k then w r else 0)
          + ((List.filter (fun x => key x == some k) rest).map w).sum :=
      fun k => filter_cons_sum _ w r rest
    rw [show (keys.map fun k => ((List.filter (fun x => key x == some k) (r :: rest)).map w).sum)
        = (keys.map fun k => (if key r == some k then w r else 0)
            + ((List.filter (fun x => key x == some k) rest).map w).sum) from
      List.map_congr_left (fun k _ => hstep k)]
    rw [sum_map_add, ih hcov2, filter_cons_sum]
    congr 1
    cases hkr : key r with
    | none =>
      simp only [Option.isSome_none, Bool.false_eq_true, if_false]
      apply List.sum_eq_zero
      intro x hx
      rcases List.mem_map.mp hx with ⟨k, _, rfl⟩
      have hne : ¬ ((none : Option κ) == some k) = true := by simp
      simp [hne]
    | some k₀ =>
      have hk₀ : k₀ ∈ keys := hcov r (List.mem_cons_self r rest) k₀ hkr
      simp only [Option.isSome_some, if_true]
      exact sum_ite_single keys hnd k₀ hk₀ (w r) (fun k => some k₀ == some k) (by
        intro k
        rw [beq_iff_eq]
        constructor
        · intro h2; exact (Option.some_inj.mp h2).symm
        · intro h2; rw [h2])

theorem sum_filter_partition {α : Type} (l : List α) (w : α → ℚ) (p q : α → Bool)
    (h : ∀ x, q x = !p x) :
    ((l.filter p).map w).sum + ((l.filter q).map w).sum = (l.map w).sum := by
  induction l with
  | nil => simp
  | cons a t ih =>
    have hqa := h a
    cases hp : p a
    · rw [hp] at hqa
      simp only [List.filter_cons, hp, hqa, Bool.not_false, if_true, Bool.false_eq_true, if_false,
        List.map_cons, List.sum_cons]
      linarith
    · rw [hp] at hqa
      simp only [List.filter_cons, hp, hqa, Bool.not_true, if_true, Bool.false_eq_true, if_false,
        List.map_cons, List.sum_cons]
      linarith

theorem cat_sales_snd_sum (rows : List SalesRow) :
    ((cat_sales rows).map (·.2)).sum
      = ((rows.filter (fun r => (r.categoria_nombre).isSome)).map (·.revenue)).sum := by
  unfold cat_sales groupRevenueByOpt
  rw [List.map_map]
  have hcov : ∀ r ∈ rows, ∀ k, r.categoria_nombre = some k
      → k ∈ uniq (rows.filterMap (·.categoria_nombre)) := by
    intro r hr k hk
    exact (mem_uniq _ k).mpr (List.mem_filterMap.mpr ⟨r, hr, hk⟩)
  simpa [Function.comp] using
    sum_groups (·.categoria_nombre) (·.revenue) (uniq (rows.filterMap (·.categoria_nombre)))
      (nodup_uniq _) rows hcov

/-! Field-tracking lemmas for the builder stages. -/

theorem listChoice_mem (l : List Int) (n : Nat) (h : l ≠ []) : listChoice l n ∈ l := by
  have hlen : 0 < l.length := List.length_pos.mpr h
  have hlt : n % l.length < l.length := Nat.mod_lt _ hlen
  unfold listChoice
  rw [List.getD_eq_getElem _ _ hlt]
  exact List.getElem_mem hlt

theorem mem_enum_snd {α : Type} {p : Nat × α} {l : List α} (hp : p ∈ l.enum) : p.2 ∈ l := by
  have h := List.enum_map_snd l
  rw [← h]
  exact List.mem_map_of_mem Prod.snd hp

theorem mem_productRows {producto : ProductTable} {e : Event} {r : SalesRow}
    (hr : r ∈ productRows producto e) :
    r.visitorid = e.visitorid ∧ r.transactionid = e.transactionid ∧ r.itemid = e.itemid ∧
    r.categoria_nombre = none ∧ r.marca_nombre = none ∧
    (r.precio = none ∨ ∃ p ∈ producto.rows, r.precio = p.precio) := by
  simp only [productRows] at hr
  by_cases hms : (producto.rows.filter (fun p => e.itemid == some p.id)).isEmpty
  · rw [if_pos hms] at hr
    rcases List.mem_singleton.mp hr with rfl
    exact ⟨rfl, rfl, rfl, rfl, rfl, Or.inl rfl⟩
  · rw [if_neg hms] at hr
    rcases List.mem_map.mp hr with ⟨p, hp, rfl⟩
    have hpm : p ∈ producto.rows := (List.mem_filter.mp hp).1
    refine ⟨rfl, rfl, rfl, rfl, rfl, ?_⟩
    cases hpr : producto.hasPrecio
    · exact Or.inl (by simp [hpr])
    · exact Or.inr ⟨p, hpm, by simp [hpr]⟩

theorem joinCategoria_fields {cats : List Categoria} {rows : List SalesRow} {r : SalesRow}
    (hr : r ∈ joinCategoria cats rows) :
    ∃ r₀ ∈ rows,
      r.visitorid = r₀.visitorid ∧ r.transactionid = r₀.transactionid ∧
      r.itemid = r₀.itemid ∧ r.categoria_id = r₀.categoria_id ∧
      r.marca_id = r₀.marca_id ∧ r.precio = r₀.precio ∧
      r.marca_nombre = r₀.marca_nombre ∧ r.revenue = r₀.revenue ∧
      (r.categoria_nombre = r₀.categoria_nombre ∨ ∃ c ∈ cats, r.categoria_nombre = some c.categoria) := by
  simp only [joinCategoria, List.mem_flatMap] at hr
  rcases hr with ⟨r₀, hr₀, hmem⟩
  refine ⟨r₀, hr₀, ?_⟩
  by_cases hms : (cats.filter (fun c => r₀.categoria_id == some c.id)).isEmpty
  · rw [if_pos hms] at hmem
    rcases List.mem_singleton.mp hmem with rfl
    exact ⟨rfl, rfl, rfl, rfl, rfl, rfl, rfl, rfl, Or.inl rfl⟩
  · rw [if_neg hms] at hmem
    rcases List.mem_map.mp hmem with ⟨c, hc, rfl⟩
    have hcm : c ∈ cats := (List.mem_filter.mp hc).1
    exact ⟨rfl, rfl, rfl, rfl, rfl, rfl, rfl, rfl, Or.inr ⟨c, hcm, rfl⟩⟩

theorem joinMarca_fields {useJoin : Bool} {marca : List Marca} {rows : List SalesRow} {r : SalesRow}
    (hr : r ∈ joinMarca useJoin marca rows) :
    ∃ r₀ ∈ rows,
      r.visitorid = r₀.visitorid ∧ r.transactionid = r₀.transactionid ∧
      r.itemid = r₀.itemid ∧ r.categoria_id = r₀.categoria_id ∧
      r.marca_id = r₀.marca_id ∧ r.precio = r₀.precio ∧
      r.categoria_nombre = r₀.categoria_nombre ∧ r.revenue = r₀.revenue ∧
      (r.marca_nombre = some "Sin Marca" ∨ r.marca_nombre = r₀.marca_nombre
        ∨ ∃ m ∈ marca, r.marca_nombre = some m.marca) := by
  simp only [joinMarca] at hr
  cases hu : useJoin
  · rw [hu] at hr
    simp only [Bool.false_eq_true, if_false] at hr
    rcases List.mem_map.mp hr with ⟨r₀, hr₀, rfl⟩
    exact ⟨r₀, hr₀, rfl, rfl, rfl, rfl, rfl, rfl, rfl, rfl, Or.inl rfl⟩
  · rw [hu] at hr
    simp only [if_true, List.mem_flatMap] at hr
    rcases hr with ⟨r₀, hr₀, hmem⟩
    refine ⟨r₀, hr₀, ?_⟩
    by_cases hms : (marca.filter (fun m => r₀.marca_id == some m.id)).isEmpty
    · rw [if_pos hms] at hmem
      rcases List.mem_singleton.mp hmem with rfl
      exact ⟨rfl, rfl, rfl, rfl, rfl, rfl, rfl, rfl, Or.inr (Or.inl rfl)⟩
    · rw [if_neg hms] at hmem
      rcases List.mem_map.mp hmem with ⟨m, hm, rfl⟩
      have hmm : m ∈ marca := (List.mem_filter.mp hm).1
      exact ⟨rfl, rfl, rfl, rfl, rfl, rfl, rfl, rfl, Or.inr (Or.inr ⟨m, hmm, rfl⟩)⟩

theorem assignRevenue_fields {usePrecio : Bool} {rngRev : Nat → ℚ} {rows : List SalesRow}
    {r : SalesRow} (hr : r ∈ assignRevenue usePrecio rngRev rows) :
    ∃ r₀ ∈ rows,
      r.visitorid = r₀.visitorid ∧ r.transactionid = r₀.transactionid ∧
      r.itemid = r₀.itemid ∧ r.categoria_id = r₀.categoria_id ∧
      r.marca_id = r₀.marca_id ∧ r.precio = r₀.precio ∧
      r.categoria_nombre = r₀.categoria_nombre ∧ r.marca_nombre = r₀.marca_nombre ∧
      ((usePrecio = true ∧ r.revenue = r₀.precio.getD 100)
        ∨ (usePrecio = false ∧ ∃ i, r.revenue = rngRev i)) := by
  simp only [assignRevenue] at hr
  cases hu : usePrecio
  · rw [hu] at hr
    simp only [Bool.false_eq_true, if_false] at hr
    rcases List.mem_map.mp hr with ⟨p, hp, rfl⟩
    exact ⟨p.2, mem_enum_snd hp, rfl, rfl, rfl, rfl, rfl, rfl, rfl, rfl,
      Or.inr ⟨rfl, p.1, rfl⟩⟩
  · rw [hu] at hr
    simp only [if_true] at hr
    rcases List.mem_map.mp hr with ⟨r₀, hr₀, rfl⟩
    exact ⟨r₀, hr₀, rfl, rfl, rfl, rfl, rfl, rfl, rfl, rfl, Or.inl ⟨rfl, rfl⟩⟩

theorem filterTransactions_subset {events : EventsTable} {e : Event}
    (he : e ∈ filterTransactions events) : e ∈ events.rows := by
  unfold filterTransactions at he
  by_cases ht : events.hasTransactionid
  · rw [if_pos ht] at he
    by_cases hf : (events.rows.filter (fun x => x.transactionid.isSome)).isEmpty
    · rwa [if_pos hf] at he
    · rw [if_neg hf] at he
      exact List.mem_of_mem_filter he
  · rwa [if_neg ht] at he

/-! Row-count lemmas: each left join emits exactly one row per input row when
the right table's join key is duplicate-free. -/

theorem filter_length_le_one {α κ : Type} [DecidableEq κ] (l : List α) (p : α → Bool)
    (key : α → κ) (hnd : (l.map key).Nodup) (v : κ) (hp : ∀ x, p x = true → key x = v) :
    (l.filter p).length ≤ 1 := by
  induction l with
  | nil => simp
  | cons a t ih =>
    have hnd2 : (t.map key).Nodup := (List.nodup_cons.mp (by simpa using hnd)).2
    have hhead : key a ∉ t.map key := (List.nodup_cons.mp (by simpa using hnd)).1
    cases hpa : p a
    · rw [List.filter_cons, hpa]
      simpa using ih hnd2
    · rw [List.filter_cons, hpa]
      have hnil : t.filter p = [] := by
        apply List.filter_eq_nil_iff.mpr
        intro y hy hpy
        have h1 : key y = v := hp y hpy
        have h2 : key a = v := hp a hpa
        exact hhead (h2 ▸ h1 ▸ List.mem_map_of_mem key hy)
      simp [hnil]

theorem filter_optkey_length_le_one {β : Type} (l : List β) (key : β → Int)
    (hnd : (l.map key).Nodup) (v : Option Int) :
    (l.filter (fun x => v == some (key x))).length ≤ 1 := by
  cases v with
  | none =>
    have hnil : l.filter (fun x => (none : Option Int) == some (key x)) = [] := by
      apply List.filter_eq_nil_iff.mpr
      intro y _ hy
      simp at hy
    simp [hnil]
  | some w =>
    exact filter_length_le_one l _ key hnd w
      (fun x hx => (Option.some_inj.mp (beq_iff_eq.mp hx)).symm)

theorem matchRows_length {α β : Type} (ms : List β) (r : α) (g : β → α)
    (hle : ms.length ≤ 1) : (if ms.isEmpty then [r] else ms.map g).length = 1 := by
  by_cases h : ms.isEmpty
  · rw [if_pos h]; rfl
  · rw [if_neg h, List.length_map]
    have hpos : 0 < ms.length :=
      List.length_pos.mpr (by intro he; rw [he] at h; exact h rfl)
    omega

theorem flatMap_length_one {α β : Type} (l : List α) (f : α → List β)
    (h : ∀ x ∈ l, (f x).length = 1) : (l.flatMap f).length = l.length := by
  induction l with
  | nil => rfl
  | cons a t ih =>
    rw [List.flatMap_cons, List.length_append, h a (List.mem_cons_self a t),
      ih (fun x hx => h x (List.mem_cons_of_mem _ hx)), List.length_cons]
    omega

theorem productRows_length {producto : ProductTable} (e : Event)
    (hnd : (producto.rows.map (·.id)).Nodup) : (productRows producto e).length = 1 := by
  simp only [productRows]
  exact matchRows_length _ _ _ (filter_optkey_length_le_one producto.rows (·.id) hnd e.itemid)

theorem joinCategoria_length (cats : List Categoria) (rows : List SalesRow)
    (hnd : (cats.map (·.id)).Nodup) : (joinCategoria cats rows).length = rows.length := by
  unfold joinCategoria
  apply flatMap_length_one
  intro r _
  exact matchRows_length _ _ _ (filter_optkey_length_le_one cats (·.id) hnd r.categoria_id)

theorem joinMarca_length (useJoin : Bool) (marca : List Marca) (rows : List SalesRow)
    (hnd : (marca.map (·.id)).Nodup) : (joinMarca useJoin marca rows).length = rows.length := by
  unfold joinMarca
  cases useJoin
  · simp
  · simp only [if_true]
    apply flatMap_length_one
    intro r _
    exact matchRows_length _ _ _ (filter_optkey_length_le_one marca (·.id) hnd r.marca_id)

theorem assignRevenue_length (usePrecio : Bool) (rngRev : Nat → ℚ) (rows : List SalesRow) :
    (assignRevenue usePrecio rngRev rows).length = rows.length := by
  unfold assignRevenue
  cases usePrecio <;> simp [List.enum_length]

theorem buildRows_length (events : EventsTable) (producto : ProductTable)
    (categoria : List Categoria) (marca : List Marca)
    (rngCat rngMarca : Nat → Nat) (rngRev : Nat → ℚ)
    (hp : (producto.rows.map (·.id)).Nodup) (hc : (categoria.map (·.id)).Nodup)
    (hm : (marca.map (·.id)).Nodup) :
    (buildRows events producto categoria marca rngCat rngMarca rngRev).length
      = (filterTransactions events).length := by
  unfold buildRows
  rw [assignRevenue_length, joinMarca_length _ _ _ hm, joinCategoria_length _ _ hc]
  cases hit : events.hasItemid
  · simp [List.enum_length]
  · simp only [if_true]
    exact flatMap_length_one _ _ (fun e _ => productRows_length e hp)

theorem filterTransactions_length_le (events : EventsTable) :
    (filterTransactions events).length ≤ events.rows.length := by
  unfold filterTransactions
  by_cases ht : events.hasTransactionid
  · rw [if_pos ht]
    by_cases hf : (events.rows.filter (fun x => x.transactionid.isSome)).isEmpty
    · rw [if_pos hf]
    · rw [if_neg hf]
      exact List.length_filter_le _ _
  · rw [if_neg ht]

theorem filterTransactions_eq_of_all_some (events : EventsTable)
    (h : ∀ e ∈ events.rows, e.transactionid.isSome) :
    filterTransactions events = events.rows := by
  unfold filterTransactions
  by_cases ht : events.hasTransactionid
  · rw [if_pos ht]
    have hf : events.rows.filter (fun e => e.transactionid.isSome) = events.rows :=
      List.filter_eq_self.mpr h
    rw [hf, ite_self]
  · rw [if_neg ht]

/-! Provenance lemmas for rows of the finished sales view. -/

theorem mem_buildRows_txn {events : EventsTable} {producto : ProductTable}
    {categoria : List Categoria} {marca : List Marca}
    {rngCat rngMarca : Nat → Nat} {rngRev : Nat → ℚ} {r : SalesRow}
    (hr : r ∈ buildRows events producto categoria marca rngCat rngMarca rngRev) :
    ∃ e ∈ filterTransactions events, r.transactionid = e.transactionid := by
  unfold buildRows at hr
  rcases assignRevenue_fields hr with ⟨r1, hr1, _, ht1, _⟩
  rcases joinMarca_fields hr1 with ⟨r2, hr2, _, ht2, _⟩
  rcases joinCategoria_fields hr2 with ⟨r3, hr3, _, ht3, _⟩
  cases hit : events.hasItemid
  · rw [hit] at hr3
    simp only [Bool.false_eq_true, if_false] at hr3
    rcases List.mem_map.mp hr3 with ⟨p, hp, rfl⟩
    refine ⟨p.2, mem_enum_snd hp, ?_⟩
    rw [ht1, ht2, ht3]
    rfl
  · rw [hit] at hr3
    simp only [if_true] at hr3
    rcases List.mem_flatMap.mp hr3 with ⟨e, he, hre⟩
    rcases mem_productRows hre with ⟨_, hte, _⟩
    exact ⟨e, he, by rw [ht1, ht2, ht3, hte]⟩

theorem mem_buildRows_names {events : EventsTable} {producto : ProductTable}
    {categoria : List Categoria} {marca : List Marca}
    {rngCat rngMarca : Nat → Nat} {rngRev : Nat → ℚ} {r : SalesRow}
    (hr : r ∈ buildRows events producto categoria marca rngCat rngMarca rngRev) :
    (r.categoria_nombre = none ∨ ∃ c ∈ categoria, r.categoria_nombre = some c.categoria) ∧
    (r.marca_nombre = some "Sin Marca" ∨ r.marca_nombre = none
      ∨ ∃ m ∈ marca, r.marca_nombre = some m.marca) := by
  unfold buildRows at hr
  rcases assignRevenue_fields hr with ⟨r1, hr1, _, _, _, _, _, _, hcat1, hmar1, _⟩
  rcases joinMarca_fields hr1 with ⟨r2, hr2, _, _, _, _, _, _, hcat2, _, hmar2⟩
  rcases joinCategoria_fields hr2 with ⟨r3, hr3, _, _, _, _, _, _, hmar3, _, hcat3⟩
  have hbase : r3.categoria_nombre = none ∧ r3.marca_nombre = none := by
    cases hit : events.hasItemid
    · rw [hit] at hr3
      simp only [Bool.false_eq_true, if_false] at hr3
      rcases List.mem_map.mp hr3 with ⟨p, _, rfl⟩
      exact ⟨rfl, rfl⟩
    · rw [hit] at hr3
      simp only [if_true] at hr3
      rcases List.mem_flatMap.mp hr3 with ⟨e, _, hre⟩
      rcases mem_productRows hre with ⟨_, _, _, hc, hm, _⟩
      exact ⟨hc, hm⟩
  constructor
  · rcases hcat3 with hsame | ⟨c, hc, heq⟩
    · exact Or.inl (by rw [hcat1, hcat2, hsame, hbase.1])
    · exact Or.inr ⟨c, hc, by rw [hcat1, hcat2, heq]⟩
  · rcases hmar2 with hsin | hsame | ⟨m, hm, heq⟩
    · exact Or.inl (by rw [hmar1, hsin])
    · exact Or.inr (Or.inl (by rw [hmar1, hsame, hmar3, hbase.2]))
    · exact Or.inr (Or.inr ⟨m, hm, by rw [hmar1, heq]⟩)

theorem mem_buildRows_revenue {events : EventsTable} {producto : ProductTable}
    {categoria : List Categoria} {marca : List Marca}
    {rngCat rngMarca : Nat → Nat} {rngRev : Nat → ℚ} {r : SalesRow}
    (hr : r ∈ buildRows events producto categoria marca rngCat rngMarca rngRev) :
    ((producto.hasPrecio && events.hasItemid) = true →
      (r.precio = none ∨ ∃ p ∈ producto.rows, r.precio = p.precio)
        ∧ r.revenue = r.precio.getD 100) ∧
    ((producto.hasPrecio && events.hasItemid) = false → ∃ i, r.revenue = rngRev i) := by
  unfold buildRows at hr
  rcases assignRevenue_fields hr with ⟨r1, hr1, _, _, _, _, _, hprec1, _, _, hrev1⟩
  rcases joinMarca_fields hr1 with ⟨r2, hr2, _, _, _, _, _, hprec2, _, _, _⟩
  rcases joinCategoria_fields hr2 with ⟨r3, hr3, _, _, _, _, _, hprec3, _, _, _⟩
  constructor
  · intro hu
    rcases hrev1 with ⟨_, hrev⟩ | ⟨hfalse, _⟩
    · constructor
      · have hit : events.hasItemid = true := by
          simp only [Bool.and_eq_true] at hu
          exact hu.2
        rw [hit] at hr3
        simp only [if_true] at hr3
        rcases List.mem_flatMap.mp hr3 with ⟨e, _, hre⟩
        rcases mem_productRows hre with ⟨_, _, _, _, _, hpd⟩
        rw [hprec1, hprec2, hprec3]
        exact hpd
      · rw [hrev, hprec1]
    · rw [hu] at hfalse; cases hfalse
  · intro hu
    rcases hrev1 with ⟨htrue, _⟩ | ⟨_, hi⟩
    · rw [hu] at htrue; cases htrue
    · exact hi

theorem mem_buildRows_synthetic {events : EventsTable} {producto : ProductTable}
    {categoria : List Categoria} {marca : List Marca}
    {rngCat rngMarca : Nat → Nat} {rngRev : Nat → ℚ} {r : SalesRow}
    (hit : events.hasItemid = false) (hcats : categoria ≠ [])
    (hr : r ∈ buildRows events producto categoria marca rngCat rngMarca rngRev) :
    (∃ c ∈ categoria, r.categoria_id = some c.id) ∧
    ((producto.hasMarcaId && !marca.isEmpty) = true → ∃ m ∈ marca, r.marca_id = some m.id) ∧
    ((producto.hasMarcaId && !marca.isEmpty) = false → r.marca_id = none) := by
  unfold buildRows at hr
  rcases assignRevenue_fields hr with ⟨r1, hr1, _, _, _, hcid1, hmid1, _⟩
  rcases joinMarca_fields hr1 with ⟨r2, hr2, _, _, _, hcid2, hmid2, _⟩
  rcases joinCategoria_fields hr2 with ⟨r3, hr3, _, _, _, hcid3, hmid3, _⟩
  rw [hit] at hr3
  simp only [Bool.false_eq_true, if_false] at hr3
  rcases List.mem_map.mp hr3 with ⟨p, _, rfl⟩
  have hcid : r.categoria_id
      = some (listChoice (categoria.map (·.id)) (rngCat p.1)) := by
    rw [hcid1, hcid2, hcid3]; rfl
  have hmapne : categoria.map (·.id) ≠ [] := by
    intro h0
    exact hcats (List.map_eq_nil_iff.mp h0)
  refine ⟨?_, ?_, ?_⟩
  · have hmem := listChoice_mem (categoria.map (·.id)) (rngCat p.1) hmapne
    rcases List.mem_map.mp hmem with ⟨c, hc, heq⟩
    exact ⟨c, hc, by rw [hcid, heq]⟩
  · intro hu
    have hmid : r.marca_id
        = some (listChoice (marca.map (·.id)) (rngMarca p.1)) := by
      rw [hmid1, hmid2, hmid3]
      show (syntheticRow producto.hasMarcaId categoria marca rngCat rngMarca p.1 p.2).marca_id = _
      unfold syntheticRow
      rw [show (syntheticRow producto.hasMarcaId categoria marca rngCat rngMarca p.1 p.2).marca_id
        = if producto.hasMarcaId && !marca.isEmpty then
            some (listChoice (marca.map (·.id)) (rngMarca p.1)) else none from rfl] at *
      rw [hu]
      rfl
    have hmarne : marca.map (·.id) ≠ [] := by
      intro h0
      have hne : marca ≠ [] := by
        intro hm0
        rw [hm0] at hu
        simp at hu
      exact hne (List.map_eq_nil_iff.mp h0)
    have hmem := listChoice_mem (marca.map (·.id)) (rngMarca p.1) hmarne
    rcases List.mem_map.mp hmem with ⟨m, hm, heq⟩
    exact ⟨m, hm, by rw [hmid, heq]⟩
  · intro hu
    rw [hmid1, hmid2, hmid3]
    show (if producto.hasMarcaId && !marca.isEmpty then
        some (listChoice (marca.map (·.id)) (rngMarca p.1)) else none) = none
    rw [hu]
    rfl

/-! Shape lemmas for the two `Except`-valued pipeline stages. -/

theorem create_sales_data_ok {events : EventsTable} {producto : ProductTable}
    {categoria : List Categoria} {marca : List Marca}
    {rngCat rngMarca : Nat → Nat} {rngRev : Nat → ℚ} {sd : SalesData}
    (hsd : create_sales_data events producto categoria marca rngCat rngMarca rngRev = .ok sd) :
    sd.hasVisitorid = events.hasVisitorid ∧ sd.hasTransactionid = events.hasTransactionid ∧
    sd.hasItemid = events.hasItemid ∧
    sd.rows = buildRows events producto categoria marca rngCat rngMarca rngRev := by
  unfold create_sales_data at hsd
  by_cases hguard : (!events.hasItemid && categoria.isEmpty) = true
  · rw [if_pos hguard] at hsd
    cases hsd
  · rw [if_neg hguard] at hsd
    have h := Except.ok.inj hsd
    rw [← h]
    exact ⟨rfl, rfl, rfl, rfl⟩

theorem calculate_kpis_ok {sales : SalesData} {events : EventsTable} {k : KpiSet}
    (hv : sales.hasVisitorid = true) (ht : sales.hasTransactionid = true)
    (hne : sales.rows ≠ []) (hok : calculate_kpis sales events = .ok k) :
    k = { avg_clv := pmean (kpiCustomerRevenue sales.rows),
          conversion_rate := some (kpiConversionRate sales events),
          avg_order_value := pmean (sales.rows.map (·.revenue)),
          avg_items_per_transaction :=
            if sales.hasItemid then kpiItemsPerTxn sales.rows else some 1,
          ticket_promedio := kpiTicket sales.rows,
          tasa_repeticion := some (kpiTasaRepeticion sales.rows) } := by
  unfold calculate_kpis at hok
  have h1 : sales.rows.isEmpty = false := by
    cases h : sales.rows.isEmpty
    · rfl
    · exact absurd (List.isEmpty_iff.mp h) hne
  rw [h1, hv, ht] at hok
  simp only [Bool.not_false, Bool.and_self, if_true] at hok
  exact (Except.ok.inj hok).symm

/-! Claim theorems. -/

/-- C1: whenever the sales view is non-empty, has a `visitorid` column and has
no `transactionid` column, `calculate_kpis` raises a `KeyError` (line 191
accesses the `transactionid` column with no guard), instead of taking the
documented missing-optional-column fallback. -/
theorem c1_missing_transaction_column_raises (sales : SalesData) (events : EventsTable)
    (hne : sales.rows ≠ []) (hv : sales.hasVisitorid = true)
    (ht : sales.hasTransactionid = false) :
    calculate_kpis sales events = .error "KeyError: transactionid" := by
  unfold calculate_kpis
  have h1 : sales.rows.isEmpty = false := by
    cases h : sales.rows.isEmpty
    · rfl
    · exact absurd (List.isEmpty_iff.mp h) hne
  rw [h1, hv, ht]
  simp

/-- C1 witness: the error is reached from the full pipeline on a concrete
one-event input with no `transactionid` column. -/
theorem c1_missing_transaction_column_raises_witness :
    calculate_kpis sdC1 evC1 = .error "KeyError: transactionid" :=
  c1_missing_transaction_column_raises sdC1 evC1 (by decide) rfl rfl

/-- C2 counterexample: on zero input events every KPI is zero, so
`avg_items_per_transaction` is 0, not ≥ 1, refuting the claim's universal
bound. -/
theorem c2_counterexample :
    (pipelineKpis evC2 prodEmpty [] [] rng0 rng0 rngq0).map (·.avg_items_per_transaction)
      = .ok (some 0) ∧ ¬ ((1 : ℚ) ≤ 0) :=
  ⟨rfl, by norm_num⟩

/-- C2 (amended): over a non-empty sales view with visitor and transaction
columns, `avg_items_per_transaction` equals exactly 1 when no item column
exists, and is ≥ 1 when an item column exists, provided every record carries a
non-null item id and some record carries a transaction id (null item ids or an
all-null transaction column make the pandas mean drop below 1 or go NaN, and
an empty view yields the zero fallback). -/
theorem c2_avg_items_amended (sales : SalesData) (events : EventsTable) (k : KpiSet)
    (hv : sales.hasVisitorid = true) (ht : sales.hasTransactionid = true)
    (hne : sales.rows ≠ []) (hok : calculate_kpis sales events = .ok k) :
    (sales.hasItemid = false → k.avg_items_per_transaction = some 1) ∧
    (sales.hasItemid = true →
      (∀ r ∈ sales.rows, (r.itemid).isSome) →
      (∃ r ∈ sales.rows, (r.transactionid).isSome) →
      ∃ q, k.avg_items_per_transaction = some q ∧ 1 ≤ q) := by
  have hk := calculate_kpis_ok hv ht hne hok
  constructor
  · intro hitem
    rw [hk]
    simp [hitem]
  · intro hitem hitems hex
    rcases hex with ⟨r, hrmem, hrsome⟩
    rw [hk]
    simp only [hitem, if_true]
    unfold kpiItemsPerTxn
    apply pmean_ge_one
    · rcases Option.isSome_iff_exists.mp hrsome with ⟨t, hts⟩
      have htk : t ∈ kpiTxnKeys sales.rows :=
        (mem_uniq _ t).mpr (List.mem_filterMap.mpr ⟨r, hrmem, hts⟩)
      intro h0
      rw [List.map_eq_nil_iff] at h0
      rw [h0] at htk
      cases htk
    · intro x hx
      rcases List.mem_map.mp hx with ⟨t, htmem, rfl⟩
      have htr := List.mem_filterMap.mp ((mem_uniq _ t).mp htmem)
      rcases htr with ⟨r2, hr2m, hr2t⟩
      rcases Option.isSome_iff_exists.mp (hitems r2 hr2m) with ⟨v, hv2⟩
      have hrf : r2 ∈ sales.rows.filter (fun x => x.transactionid == some t) :=
        List.mem_filter.mpr ⟨hr2m, by rw [hr2t]; exact beq_self_eq_true _⟩
      have hvu : v ∈ uniq ((sales.rows.filter
          (fun x => x.transactionid == some t)).filterMap (·.itemid)) :=
        (mem_uniq _ v).mpr (List.mem_filterMap.mpr ⟨r2, hrf, hv2⟩)
      have hlen : 0 < (uniq ((sales.rows.filter
          (fun x => x.transactionid == some t)).filterMap (·.itemid))).length :=
        List.length_pos.mpr (by
          intro h0
          rw [h0] at hvu
          cases hvu)
      exact_mod_cast hlen

/-- C2 witness: the amended bound evaluated on a concrete one-row sales
view. -/
theorem c2_avg_items_amended_witness :
    ∃ q, kW2.avg_items_per_transaction = some q ∧ 1 ≤ q :=
  (c2_avg_items_amended salesW2 evC2 kW2 rfl rfl (by decide) rfl).2 rfl
    (by decide) (by decide)

/-- C3 counterexample: with two product rows sharing id 1, the left merge
duplicates the single event, so two sales records carry a transaction id
against one raw event and the conversion rate is 200, outside [0, 100]. -/
theorem c3_counterexample :
    (pipelineKpis evC3 prodC3 [] [] rng0 rng0 rngq0).map (·.conversion_rate)
      = .ok (some 200) ∧ ¬ ((200 : ℚ) ≤ 100) := by
  constructor
  · simp only [pipelineKpis, create_sales_data, buildRows, filterTransactions, evC3, prodC3,
      rng0, rngq0]
    simp +decide [productRows, joinCategoria, joinMarca, assignRevenue, baseRow, calculate_kpis,
      kpiConversionRate, kpiTransactionsCount, zeroKpis, Except.bind, Except.map,
      List.enum, List.enumFrom]
    norm_num [pmean]
  · norm_num

/-- C3 (amended): when each reference table's join key is duplicate-free (so
the left joins cannot duplicate events), the conversion rate of a built sales
view lies in [0, 100]; and it equals exactly 100 when the events are
non-empty, a `visitorid` column exists, a `transactionid` column exists and
every event carries a transaction id. -/
theorem c3_conversion_amended (events : EventsTable) (producto : ProductTable)
    (categoria : List Categoria) (marca : List Marca)
    (rngCat rngMarca : Nat → Nat) (rngRev : Nat → ℚ)
    (hp : (producto.rows.map (·.id)).Nodup) (hc : (categoria.map (·.id)).Nodup)
    (hm : (marca.map (·.id)).Nodup) :
    (∀ sd k q, create_sales_data events producto categoria marca rngCat rngMarca rngRev = .ok sd →
      calculate_kpis sd events = .ok k → k.conversion_rate = some q → 0 ≤ q ∧ q ≤ 100) ∧
    (events.rows ≠ [] → events.hasVisitorid = true → events.hasTransactionid = true →
      (∀ e ∈ events.rows, (e.transactionid).isSome) →
      ∀ sd, create_sales_data events producto categoria marca rngCat rngMarca rngRev = .ok sd →
        (calculate_kpis sd events).map (·.conversion_rate) = Except.ok (some 100)) := by
  constructor
  · intro sd k q hsd hok hq
    obtain ⟨_, _, _, hrows⟩ := create_sales_data_ok hsd
    have hlen : sd.rows.length ≤ events.rows.length := by
      rw [hrows, buildRows_length events producto categoria marca rngCat rngMarca rngRev hp hc hm]
      exact filterTransactions_length_le events
    unfold calculate_kpis at hok
    by_cases hmain : (!sd.rows.isEmpty && sd.hasVisitorid) = true
    · rw [if_pos hmain] at hok
      by_cases htx : sd.hasTransactionid = true
      · rw [if_pos htx] at hok
        have hk := Except.ok.inj hok
        rw [← hk] at hq
        have hqv : q = kpiConversionRate sd events := (Option.some_inj.mp hq).symm
        subst hqv
        unfold kpiConversionRate
        by_cases hN : 0 < events.rows.length
        · rw [if_pos hN]
          have hT : kpiTransactionsCount sd ≤ sd.rows.length := by
            unfold kpiTransactionsCount
            by_cases h : sd.hasTransactionid = true
            · rw [if_pos h]; exact List.length_filter_le _ _
            · rw [if_neg h]
          have hTN : kpiTransactionsCount sd ≤ events.rows.length := le_trans hT hlen
          have hNq : (0 : ℚ) < (events.rows.length : ℚ) := by exact_mod_cast hN
          constructor
          · positivity
          · have hdiv : (kpiTransactionsCount sd : ℚ) / (events.rows.length : ℚ) ≤ 1 :=
              (div_le_one hNq).mpr (by exact_mod_cast hTN)
            calc (kpiTransactionsCount sd : ℚ) / (events.rows.length : ℚ) * 100
                ≤ 1 * 100 := by
                  apply mul_le_mul_of_nonneg_right hdiv
                  norm_num
              _ = 100 := by norm_num
        · rw [if_neg hN]
          norm_num
      · rw [if_neg htx] at hok
        cases hok
    · rw [if_neg hmain] at hok
      have hk := Except.ok.inj hok
      rw [← hk] at hq
      have hqv : q = 0 := by
        have : (some (0 : ℚ) : Option ℚ) = some q := hq
        exact (Option.some_inj.mp this).symm
      subst hqv
      norm_num
  · intro hne hv htc hall sd hsd
    obtain ⟨hsv, hst, _, hrows⟩ := create_sales_data_ok hsd
    have hft : filterTransactions events = events.rows :=
      filterTransactions_eq_of_all_some events hall
    have hlen : sd.rows.length = events.rows.length := by
      rw [hrows, buildRows_length events producto categoria marca rngCat rngMarca rngRev hp hc hm,
        hft]
    have hN : 0 < events.rows.length := List.length_pos.mpr hne
    have hsne : sd.rows ≠ [] := by
      intro h0
      rw [h0] at hlen
      simp at hlen
      rw [← hlen] at hN
      exact Nat.lt_irrefl 0 hN
    have hsall : ∀ r ∈ sd.rows, (r.transactionid).isSome := by
      intro r hr
      rw [hrows] at hr
      rcases mem_buildRows_txn hr with ⟨e, he, hte⟩
      rw [hft] at he
      rw [hte]
      exact hall e he
    have hsv2 : sd.hasVisitorid = true := by rw [hsv, hv]
    have hst2 : sd.hasTransactionid = true := by rw [hst, htc]
    have h1 : sd.rows.isEmpty = false := by
      cases h : sd.rows.isEmpty
      · rfl
      · exact absurd (List.isEmpty_iff.mp h) hsne
    unfold calculate_kpis
    rw [h1, hsv2, hst2]
    simp only [Bool.not_false, Bool.and_self, if_true, Except.map]
    have hcount : kpiTransactionsCount sd = events.rows.length := by
      unfold kpiTransactionsCount
      rw [if_pos hst2, List.filter_eq_self.mpr hsall, hlen]
    have hcr : kpiConversionRate sd events = 100 := by
      unfold kpiConversionRate
      rw [if_pos hN, hcount]
      have hNq : ((events.rows.length : ℚ)) ≠ 0 := by
        have : (0 : ℚ) < (events.rows.length : ℚ) := by exact_mod_cast hN
        exact ne_of_gt this
      rw [div_self hNq, one_mul]
    rw [hcr]

/-- C3 witness: the amended bounds evaluated over a concrete one-event input
whose tables have unique ids and whose event carries a transaction id. -/
theorem c3_conversion_amended_witness :
    (calculate_kpis sdW3 evW3).map (·.conversion_rate) = Except.ok (some 100) :=
  (c3_conversion_amended evW3 prodW3 catsW3 [] rng0 rng0 rngq0
    (by decide) (by decide) (by decide)).2 (by decide) rfl rfl (by decide) sdW3 rfl

/-- C4 counterexample: an event whose item id matches no product leaves
`categoria_id`/`marca_id` null, so both joins leave unmatched and the built
record keeps silently-null `categoria_nombre` and `marca_nombre` — even though
the category and brand tables are non-empty and the brand join path was
taken. -/
theorem c4_counterexample :
    (create_sales_data evC4 prodC4 catsC4 marC4 rng0 rng0 rngq0).map
      (fun sd => sd.rows.map (fun r => (r.categoria_nombre, r.marca_nombre)))
      = .ok [(none, none)] ∧ marC4 ≠ [] ∧ catsC4 ≠ [] :=
  ⟨rfl, by decide, by decide⟩

/-- C4 (amended): every built record's `categoria_nombre` is either a name
resolved from the category table or null (unmatched left join), and its
`marca_nombre` is either the explicit "Sin Marca" sentinel, a name resolved
from the brand table, or null (unmatched left join); no other values occur. -/
theorem c4_names_amended (events : EventsTable) (producto : ProductTable)
    (categoria : List Categoria) (marca : List Marca)
    (rngCat rngMarca : Nat → Nat) (rngRev : Nat → ℚ) (sd : SalesData)
    (hsd : create_sales_data events producto categoria marca rngCat rngMarca rngRev = .ok sd) :
    ∀ r ∈ sd.rows,
      (r.categoria_nombre = none ∨ ∃ c ∈ categoria, r.categoria_nombre = some c.categoria) ∧
      (r.marca_nombre = some "Sin Marca" ∨ r.marca_nombre = none
        ∨ ∃ m ∈ marca, r.marca_nombre = some m.marca) := by
  obtain ⟨_, _, _, hrows⟩ := create_sales_data_ok hsd
  intro r hr
  rw [hrows] at hr
  exact mem_buildRows_names hr

/-- C4 witness: the amended invariant evaluated at the concrete C4 record. -/
theorem c4_names_amended_witness :
    (rowC4.categoria_nombre = none
        ∨ ∃ c ∈ catsC4, rowC4.categoria_nombre = some c.categoria) ∧
      (rowC4.marca_nombre = some "Sin Marca" ∨ rowC4.marca_nombre = none
        ∨ ∃ m ∈ marC4, rowC4.marca_nombre = some m.marca) :=
  c4_names_amended evC4 prodC4 catsC4 marC4 rng0 rng0 rngq0 sdC4 rfl rowC4 (by decide)

/-- C5 counterexample: a negative source price (-5) flows into `revenue`
unchanged on the price path, so revenue is not non-negative for every
input. -/
theorem c5_counterexample :
    (create_sales_data evC3 prodC5 [] [] rng0 rng0 rngq0).map
      (fun sd => sd.rows.map (·.revenue)) = .ok [-5] ∧ ¬ ((0 : ℚ) ≤ -5) :=
  ⟨rfl, by norm_num⟩

/-- C5 (amended): provided every non-null source price is non-negative and
every uniform draw lies in [50, 500], each built record's revenue is
non-negative; on the price path it *equals* the merged price (null, or one of
the source prices) with 100 substituted for nulls, and when no price column
survived the merge it *equals* one of the raw draws, hence lies within
[50, 500]. -/
theorem c5_revenue_amended (events : EventsTable) (producto : ProductTable)
    (categoria : List Categoria) (marca : List Marca)
    (rngCat rngMarca : Nat → Nat) (rngRev : Nat → ℚ)
    (hprice : ∀ p ∈ producto.rows, ∀ q, p.precio = some q → 0 ≤ q)
    (hdraw : ∀ i, 50 ≤ rngRev i ∧ rngRev i ≤ 500) :
    ∀ sd, create_sales_data events producto categoria marca rngCat rngMarca rngRev = .ok sd →
      ∀ r ∈ sd.rows,
        0 ≤ r.revenue ∧
        ((producto.hasPrecio && events.hasItemid) = true
          → (r.precio = none ∨ ∃ p ∈ producto.rows, r.precio = p.precio)
            ∧ r.revenue = r.precio.getD 100) ∧
        ((producto.hasPrecio && events.hasItemid) = false
          → (∃ i, r.revenue = rngRev i) ∧ 50 ≤ r.revenue ∧ r.revenue ≤ 500) := by
  intro sd hsd r hr
  obtain ⟨_, _, _, hrows⟩ := create_sales_data_ok hsd
  rw [hrows] at hr
  have h5 := mem_buildRows_revenue hr
  cases hu : (producto.hasPrecio && events.hasItemid)
  · rcases h5.2 hu with ⟨i, hrev⟩
    rcases hdraw i with ⟨h50, h500⟩
    refine ⟨?_, ?_, ?_⟩
    · rw [hrev]; linarith
    · intro hfalse
      cases hfalse
    · intro _
      exact ⟨⟨i, hrev⟩, by rw [hrev]; exact h50, by rw [hrev]; exact h500⟩
  · rcases h5.1 hu with ⟨hpd, hrev⟩
    refine ⟨?_, ?_, ?_⟩
    · rcases hpd with hn | ⟨p, hpm, hpe⟩
      · rw [hrev, hn]
        norm_num
      · cases hpq : p.precio with
        | none =>
          rw [hrev, hpe, hpq]
          norm_num
        | some qq =>
          rw [hrev, hpe, hpq]
          simpa using hprice p hpm qq hpq
    · intro _
      exact ⟨hpd, hrev⟩
    · intro hfalse
      cases hfalse

/-- C5 witness: the amended derivation and bounds evaluated at a concrete
priced record. -/
theorem c5_revenue_amended_witness :
    0 ≤ rowW5.revenue ∧
      ((prodW3.hasPrecio && evW3.hasItemid) = true
        → (rowW5.precio = none ∨ ∃ p ∈ prodW3.rows, rowW5.precio = p.precio)
          ∧ rowW5.revenue = rowW5.precio.getD 100) ∧
      ((prodW3.hasPrecio && evW3.hasItemid) = false
        → (∃ i, rowW5.revenue = rngq50 i) ∧ 50 ≤ rowW5.revenue ∧ rowW5.revenue ≤ 500) :=
  c5_revenue_amended evW3 prodW3 catsW3 [] rng0 rng0 rngq50
    (by
      intro p hp q hq
      have hp2 : p = (⟨1, some 1, "p", none, some 10⟩ : Product) := by
        simpa [prodW3] using hp
      rw [hp2] at hq
      have hq2 : (10 : ℚ) = q := Option.some_inj.mp hq
      rw [← hq2]
      norm_num)
    (by
      intro i
      constructor
      · norm_num [rngq50]
      · norm_num [rngq50])
    sdW5 rfl rowW5 (by decide)

/-- C6 counterexample: a record whose `categoria_nombre` is null is dropped by
the category groupby, so the chart's revenue total (0) differs from the total
revenue over all sales records (5). -/
theorem c6_counterexample :
    ((cat_sales_plot (3 / 2) rowsC6).map (·.2)).sum ≠ ((rowsC6.map (·.revenue))).sum := by
  simp +decide [cat_sales_plot, cat_sales, groupRevenueByOpt, uniq, rowsC6, List.filterMap]

/-- C6 (amended): for every sales table and every share threshold, the
revenue total of the plotted category breakdown (small categories collapsed
into "Otras") equals the total revenue over the records with a *non-null*
category name — records the groupby drops are excluded, not conserved. -/
theorem c6_category_revenue_conservation (rows : List SalesRow) (t : ℚ) :
    ((cat_sales_plot t rows).map (·.2)).sum
      = ((rows.filter (fun r => (r.categoria_nombre).isSome)).map (·.revenue)).sum := by
  rw [← cat_sales_snd_sum rows]
  unfold cat_sales_plot
  have hpq : ∀ x : String × ℚ,
      (decide (x.2 / ((cat_sales rows).map (·.2)).sum * 100 < t))
        = !(decide (t ≤ x.2 / ((cat_sales rows).map (·.2)).sum * 100)) := by
    intro x
    by_cases h : t ≤ x.2 / ((cat_sales rows).map (·.2)).sum * 100
    · simp [h, not_lt.mpr h]
    · simp [h, lt_of_not_ge h]
  have hpart := sum_filter_partition (cat_sales rows) (·.2)
    (fun x => decide (t ≤ x.2 / ((cat_sales rows).map (·.2)).sum * 100))
    (fun x => decide (x.2 / ((cat_sales rows).map (·.2)).sum * 100 < t)) hpq
  by_cases hoc : ((cat_sales rows).filter
      (fun x => decide (x.2 / ((cat_sales rows).map (·.2)).sum * 100 < t))).isEmpty
  · rw [if_neg (by rw [hoc]; simp)]
    have hnil := List.isEmpty_iff.mp hoc
    rw [hnil] at hpart
    simpa using hpart
  · have hocf : ((cat_sales rows).filter
        (fun x => decide (x.2 / ((cat_sales rows).map (·.2)).sum * 100 < t))).isEmpty = false := by
      cases h : ((cat_sales rows).filter
          (fun x => decide (x.2 / ((cat_sales rows).map (·.2)).sum * 100 < t))).isEmpty
      · rfl
      · exact absurd h hoc
    rw [if_pos (by rw [hocf]; rfl)]
    rw [List.map_append, List.sum_append]
    simpa using hpart

/-- C7 counterexample: with a non-empty sales view lacking a `visitorid`
column, the KPI calculator does return all-zero KPIs, but the aggregation
views raise a `KeyError` at `groupby('visitorid')` (line 278), refuting the
claim's "no aggregation view raises" for that case. -/
theorem c7_counterexample :
    pipelineCharts evC7 prodEmpty [] [] rng0 rng0 rngq0 = .error "KeyError: visitorid"
      ∧ pipelineKpis evC7 prodEmpty [] [] rng0 rng0 rngq0 = .ok zeroKpis :=
  ⟨rfl, rfl⟩

/-- C7 (amended): when the sales view is empty or lacks a `visitorid` column
the KPI calculator returns all six KPIs as zero without error; and when the
sales view is empty no aggregation view raises (the chart block is skipped
entirely). -/
theorem c7_zero_fallback_amended (sales : SalesData) (events : EventsTable) :
    ((sales.rows = [] ∨ sales.hasVisitorid = false)
      → calculate_kpis sales events = .ok zeroKpis) ∧
    (sales.rows = [] → create_charts sales events = .ok emptyCharts) := by
  constructor
  · intro h
    unfold calculate_kpis
    have hcond : (!sales.rows.isEmpty && sales.hasVisitorid) = false := by
      rcases h with h | h
      · simp [h]
      · simp [h]
    rw [hcond]
    simp
  · intro h
    unfold create_charts
    simp [h]

/-- C7 witness: the amended fallback evaluated at a concrete empty view. -/
theorem c7_zero_fallback_amended_witness :
    calculate_kpis salesW7 evC2 = .ok zeroKpis ∧ create_charts salesW7 evC2 = .ok emptyCharts :=
  ⟨(c7_zero_fallback_amended salesW7 evC2).1 (Or.inl rfl),
    (c7_zero_fallback_amended salesW7 evC2).2 rfl⟩

/-- C8: on the three-event scenario (visitor 1 buys items 10 and 11 in
transaction A at prices 50 and 30, visitor 2 buys item 10 in transaction B at
price 50), the pipeline yields avg_clv = 65, ticket_promedio = 65,
avg_items_per_transaction = 3/2 and tasa_repeticion = 0. -/
theorem c8_scenario_kpis :
    (pipelineKpis evC8 prodC8 catsC8 [] rng0 rng0 rngq0).map
      (fun k => (k.avg_clv, k.ticket_promedio, k.avg_items_per_transaction, k.tasa_repeticion))
      = .ok (some 65, some 65, some (3 / 2), some 0) := by
  simp only [pipelineKpis, create_sales_data, buildRows, filterTransactions, evC8, prodC8, catsC8,
    rng0, rngq0]
  simp +decide [productRows, joinCategoria, joinMarca, assignRevenue, baseRow, calculate_kpis,
    kpiCustomerRevenue, kpiVisitors, kpiTxnKeys, kpiItemsPerTxn, kpiTicket, kpiTasaRepeticion,
    kpiComprasPorCliente, kpiConversionRate, kpiTransactionsCount, zeroKpis, uniq,
    Except.bind, Except.map, List.enum, List.enumFrom, List.filterMap]
  norm_num [pmean]

/-- C9 counterexample: on the synthetic path with a *non-empty* brand table
but no `marca_id` column on the product table, no brand id is assigned (the
record's `marca_id` stays null), refuting "whenever the brand table is
non-empty". -/
theorem c9_counterexample :
    (create_sales_data evC9 prodEmpty catsC9 marC9 rng0 rng0 rngq0).map
      (fun sd => sd.rows.map (·.marca_id)) = .ok [none] ∧ marC9 ≠ [] :=
  ⟨rfl, by decide⟩

/-- C9 (amended): on the synthetic path (no `itemid` column, non-empty
category table) every built record receives a category id drawn from the
category table; a brand id drawn from the brand table is assigned exactly when
the product table has a `marca_id` column *and* the brand table is non-empty,
and otherwise `marca_id` stays null. -/
theorem c9_synthetic_amended (events : EventsTable) (producto : ProductTable)
    (categoria : List Categoria) (marca : List Marca)
    (rngCat rngMarca : Nat → Nat) (rngRev : Nat → ℚ)
    (hit : events.hasItemid = false) (hcats : categoria ≠ []) :
    ∀ sd, create_sales_data events producto categoria marca rngCat rngMarca rngRev = .ok sd →
      ∀ r ∈ sd.rows,
        (∃ c ∈ categoria, r.categoria_id = some c.id) ∧
        ((producto.hasMarcaId && !marca.isEmpty) = true
          → ∃ m ∈ marca, r.marca_id = some m.id) ∧
        ((producto.hasMarcaId && !marca.isEmpty) = false → r.marca_id = none) := by
  intro sd hsd r hr
  obtain ⟨_, _, _, hrows⟩ := create_sales_data_ok hsd
  rw [hrows] at hr
  exact mem_buildRows_synthetic hit hcats hr

/-- C9 witness: the amended assignment evaluated at a concrete synthetic
record (brand-id column present, non-empty brand table). -/
theorem c9_synthetic_amended_witness :
    (∃ c ∈ catsW9, rowW9.categoria_id = some c.id) ∧
      ((prodW9.hasMarcaId && !marC9.isEmpty) = true
        → ∃ m ∈ marC9, rowW9.marca_id = some m.id) ∧
      ((prodW9.hasMarcaId && !marC9.isEmpty) = false → rowW9.marca_id = none) :=
  c9_synthetic_amended evC9 prodW9 catsW9 marC9 rng0 rng0 rngq50 rfl (by decide)
    sdW9 rfl rowW9 (by decide)

/-- C10: on the synthetic path, an empty category table makes the builder
raise the `np.random.choice` ValueError (its population is empty) instead of
producing any fallback. -/
theorem c10_empty_category_table_raises (events : EventsTable) (producto : ProductTable)
    (marca : List Marca) (rngCat rngMarca : Nat → Nat) (rngRev : Nat → ℚ)
    (hne : events.rows ≠ []) (hit : events.hasItemid = false) :
    create_sales_data events producto [] marca rngCat rngMarca rngRev
      = .error "ValueError: a must be non-empty" := by
  unfold create_sales_data
  simp [hit]

/-- C10 witness: the failure evaluated at a concrete one-event input. -/
theorem c10_empty_category_table_raises_witness :
    create_sales_data evW10 prodEmpty [] [] rng0 rng0 rngq0
      = .error "ValueError: a must be non-empty" :=
  c10_empty_category_table_raises evW10 prodEmpty [] rng0 rng0 rngq0 (by decide) rfl
